import Mathlib

/-!
Shallow embedding of the scoring, health-tracking and index-sharding engine of
`src/pipeline/fetch.py` (repository oss-scout), together with theorems checking
the design document against it.

Modelling conventions:
* Python floats are modelled by `ℚ`; `round(x, n)` is modelled by rounding
  `x * 10^n` to the nearest integer.
* `math.log1p` appears only through ratios `log1p a / log1p b`; since it is a
  transcendental function the embedding passes it as an explicit function
  parameter `lg : ℚ → ℚ` (standing for `fun x => Real.log (1 + x)`), so every
  definition stays executable.  Likewise `0.5 ** (d / 30)` is passed as a
  parameter `decay : ℚ → ℚ` (standing for `fun d => (1/2) ^ (d / 30)`).
  Theorems quantify over these parameters and state only properties that hold
  for the real functions (monotonicity / positivity facts are taken as
  hypotheses where needed).
* Counters coming from the catalogs (stars, forks, downloads, likes, day
  counts, contribution counts) are natural numbers; deltas are integers.
-/

namespace OssScout

/-- Python `clamp(value, min_val=0, max_val=1)` from fetch.py at its default bounds;
every call site in the scoring and momentum code uses the defaults. -/
def clamp (x : ℚ) : ℚ := max 0 (min 1 x)

/-- Python `round(x, 1)` (round to one decimal), on the `ℚ` model. -/
def round1 (x : ℚ) : ℚ := ((round (x * 10) : ℤ) : ℚ) / 10

/-- Python `round(x, 2)`. -/
def round2 (x : ℚ) : ℚ := ((round (x * 100) : ℤ) : ℚ) / 100

/-- Python `round(x, 4)`. -/
def round4 (x : ℚ) : ℚ := ((round (x * 10000) : ℤ) : ℚ) / 10000

/-! ## Momentum tracker (`compute_momentum`, fetch.py lines 94-165)

`current_metrics` is built in `save_projects` with keys
`source, stars, forks, downloads, likes`; `previous_metrics` is the snapshot
entry for the join key, an empty dict on a first run (every `.get` then
returns the default 0). -/

/-- The `current_metrics` dict passed to `compute_momentum`. -/
structure CurMetrics where
  source : String
  stars : ℕ
  forks : ℕ
  downloads : ℕ
  likes : ℕ

/-- The `previous_metrics` dict: only the four counters are ever read, each
with default 0, so an absent snapshot entry is the all-zero record. -/
structure PrevMetrics where
  stars : ℕ
  forks : ℕ
  downloads : ℕ
  likes : ℕ

/-- The empty dict `{}` used when no prior snapshot entry exists. -/
def emptyPrev : PrevMetrics := ⟨0, 0, 0, 0⟩

/-- The dict returned by `compute_momentum`. -/
structure MomentumRecord where
  stars_delta : ℤ
  forks_delta : ℤ
  downloads_delta : ℤ
  likes_delta : ℤ
  momentum_score : ℚ
  momentum_label : String
  stars_per_week : ℚ
  downloads_per_week : ℚ
  likes_per_week : ℚ
  normalized_growth : ℚ
  momentum_label_v2 : String

/-- Source `stars_momentum` (lines 113-116): `log1p(abs(stars_delta)) /
log1p(max(1, stars))` when `stars > 0`, else 0. -/
def starsMomentum (lg : ℚ → ℚ) (cur : CurMetrics) (prev : PrevMetrics) : ℚ :=
  if 0 < cur.stars then
    lg ((((cur.stars : ℤ) - (prev.stars : ℤ)).natAbs : ℚ)) / lg ((max 1 cur.stars : ℕ) : ℚ)
  else 0

/-- Source `downloads_momentum` (lines 118-121). -/
def downloadsMomentum (lg : ℚ → ℚ) (cur : CurMetrics) (prev : PrevMetrics) : ℚ :=
  if 0 < cur.downloads then
    lg ((((cur.downloads : ℤ) - (prev.downloads : ℤ)).natAbs : ℚ)) / lg ((max 1 cur.downloads : ℕ) : ℚ)
  else 0

/-- Source `likes_momentum` (lines 123-126). -/
def likesMomentum (lg : ℚ → ℚ) (cur : CurMetrics) (prev : PrevMetrics) : ℚ :=
  if 0 < cur.likes then
    lg ((((cur.likes : ℤ) - (prev.likes : ℤ)).natAbs : ℚ)) / lg ((max 1 cur.likes : ℕ) : ℚ)
  else 0

/-- Source `normalized_growth` before the 4-decimal rounding (lines 129-134):
stars momentum for GitHub, a 70/30 downloads/likes blend otherwise. -/
def normalizedGrowth (lg : ℚ → ℚ) (cur : CurMetrics) (prev : PrevMetrics) : ℚ :=
  if cur.source = "github" then starsMomentum lg cur prev
  else downloadsMomentum lg cur prev * (7/10) + likesMomentum lg cur prev * (3/10)

/-- Source `momentum_score` (lines 131 and 134): the normalized growth scaled by 100
and passed through `clamp` at its default bounds. -/
def momentumScore (lg : ℚ → ℚ) (cur : CurMetrics) (prev : PrevMetrics) : ℚ :=
  if cur.source = "github" then clamp (starsMomentum lg cur prev * 100)
  else clamp (normalizedGrowth lg cur prev * 100)

/-- Line 137: baseline is the stars counter, or else the downloads counter, or
else 0, with Python `or` picking the first non-zero value. -/
def baselineOf (cur : CurMetrics) : ℕ :=
  if cur.stars ≠ 0 then cur.stars
  else if cur.downloads ≠ 0 then cur.downloads
  else 0

/-- Function `compute_momentum(current_metrics, previous_metrics, weeks_elapsed)`
(fetch.py lines 94-165). -/
def compute_momentum (lg : ℚ → ℚ) (cur : CurMetrics) (prev : PrevMetrics)
    (weeks_elapsed : ℚ) : MomentumRecord :=
  let stars_delta : ℤ := (cur.stars : ℤ) - (prev.stars : ℤ)
  let forks_delta : ℤ := (cur.forks : ℤ) - (prev.forks : ℤ)
  let downloads_delta : ℤ := (cur.downloads : ℤ) - (prev.downloads : ℤ)
  let likes_delta : ℤ := (cur.likes : ℤ) - (prev.likes : ℤ)
  let wk : ℚ := max 1 weeks_elapsed
  let ng : ℚ := normalizedGrowth lg cur prev
  let score : ℚ := momentumScore lg cur prev
  let label_v2 : String :=
    if baselineOf cur < 1000 ∧ (1/10 : ℚ) < ng then "breakout"
    else if (1/20 : ℚ) < ng then "rising"
    else "flat"
  let label : String :=
    if (5 : ℚ) ≤ score then "rising"
    else if (1 : ℚ) ≤ score then "steady"
    else "flat"
  { stars_delta := stars_delta
    forks_delta := forks_delta
    downloads_delta := downloads_delta
    likes_delta := likes_delta
    momentum_score := score
    momentum_label := label
    stars_per_week := round2 ((stars_delta : ℚ) / wk)
    downloads_per_week := round2 ((downloads_delta : ℚ) / wk)
    likes_per_week := round2 ((likes_delta : ℚ) / wk)
    normalized_growth := round4 ng
    momentum_label_v2 := label_v2 }

/-! ## Tag extractor (`extract_tags`, fetch.py lines 167-316)

The sequence of independent `if any(kw in all_topics ...)` statements is
embedded as an ordered table of (tag, keyword-list) rows; the license bucket
(lines 268-278, the only `if/elif/else` chain) sits between the first block of
rows (sections 1-5) and the bonus rows (model family, system properties,
world-model, LLM-specific). -/

/-- Substring test on character lists (Python `needle in hay`). -/
def charsContain : List Char → List Char → Bool
  | [], needle => needle.isEmpty
  | c :: t, needle => needle.isPrefixOf (c :: t) || charsContain t needle

/-- Python `needle in hay` on strings. -/
def strContains (hay needle : String) : Bool := charsContain hay.data needle.data

/-- Python `str.lower()`. -/
def strLower (s : String) : String := String.mk (s.data.map Char.toLower)

/-- Lines 172-173 haystack: the topics joined by blanks and lowercased, then a
blank, then the lowercased text (a Python `None` text is the empty string
here). -/
def haystack (text : String) (topics : List String) : String :=
  strLower (String.intercalate " " topics) ++ " " ++ strLower text

/-- Sections 1-5 of `extract_tags` (modality, task, ecosystem,
control/conditioning, pipeline type), lines 176-266, in source order. -/
def keywordRows1 : List (String × List String) :=
  [ ("image", ["image", "img", "vision", "visual", "picture", "photo", "t2i", "i2i"])
  , ("video", ["video", "vid", "motion", "animation", "clip", "t2v", "i2v", "v2v"])
  , ("audio", ["audio", "sound", "music", "speech", "voice", "tts", "asr", "sts"])
  , ("3d", ["3d", "nerf", "gaussian-splatting", "3dgs", "mesh", "point-cloud", "3d-reconstruction"])
  , ("multimodal", ["multimodal", "multi-modal", "vision-language", "vlm", "vision-text"])
  , ("world", ["world-model", "world model", "simulation", "environment", "physics", "embodied"])
  , ("t2i", ["text-to-image", "t2i", "text2image", "txt2img"])
  , ("i2i", ["image-to-image", "i2i", "img2img", "image-editing"])
  , ("t2v", ["text-to-video", "t2v", "text2video", "txt2vid"])
  , ("i2v", ["image-to-video", "i2v", "img2video", "animate", "animation"])
  , ("v2v", ["video-to-video", "v2v", "video-editing", "video-enhancement"])
  , ("tts", ["text-to-speech", "tts", "speech-synthesis"])
  , ("asr", ["speech-to-text", "asr", "transcription", "whisper", "speech-recognition"])
  , ("sts", ["speech-to-speech", "sts", "voice-cloning", "voice-synthesis"])
  , ("voice-conversion", ["voice-conversion", "voice-clone", "vc", "voice-transfer"])
  , ("speech-enhancement", ["speech-enhancement", "noise-reduction", "audio-enhancement"])
  , ("musicgen", ["music-generation", "musicgen", "audio-generation"])
  , ("diffusers", ["diffusers", "huggingface-diffusers"])
  , ("comfyui", ["comfyui", "comfy-ui", "comfy"])
  , ("automatic1111", ["automatic1111", "a1111", "stable-diffusion-webui", "sd-webui"])
  , ("sdxl", ["sdxl", "stable-diffusion-xl"])
  , ("kohya", ["kohya", "kohya-ss"])
  , ("pytorch", ["pytorch", "torch"])
  , ("jax", ["jax", "flax"])
  , ("onnx", ["onnx", "tensorrt", "openvino"])
  , ("controlnet", ["controlnet", "control-net", "conditioning"])
  , ("pose-depth", ["pose", "depth", "normal", "canny", "edge", "openpose"])
  , ("motion-control", ["motion", "motion-control", "camera", "temporal"])
  , ("inpainting", ["inpaint", "outpaint", "mask", "inpainting", "outpainting"])
  , ("upscaling", ["upscale", "upscaling", "super-resolution", "sr", "enhance"])
  , ("lora", ["lora", "adapter", "dreambooth", "fine-tuning"])
  , ("segmentation", ["segmentation", "semantic-seg", "instance-seg", "mask-generation"])
  , ("training", ["training", "train", "fine-tune", "finetune", "fine-tuning"])
  , ("inference", ["inference", "serving", "deployment", "server", "api"])
  , ("eval", ["eval", "evaluation", "benchmark", "testing", "metrics"])
  , ("dataset", ["dataset", "data", "corpus"])
  , ("ui", ["gradio", "streamlit", "web-ui", "interface", "demo", "webapp"])
  , ("plugin", ["plugin", "extension", "node", "custom-node", "addon"])
  , ("cli", ["cli", "command-line", "terminal"])
  , ("library", ["library", "sdk", "framework", "toolkit"])
  , ("node-graph", ["node-graph", "visual-programming", "workflow"]) ]

/-- Bonus sections of `extract_tags` after the license bucket (model family,
system properties, world-model/simulation/agent, LLM-specific),
lines 280-314, in source order. -/
def keywordRows2 : List (String × List String) :=
  [ ("diffusion", ["diffusion", "stable-diffusion", "latent-diffusion"])
  , ("transformer", ["transformer", "attention", "llm", "gpt"])
  , ("gan", ["gan", "generative-adversarial"])
  , ("flow", ["flow", "flow-matching", "rectified-flow"])
  , ("real-time", ["realtime", "real-time", "live", "low-latency"])
  , ("interactive", ["interactive", "responsive", "fast"])
  , ("streaming", ["streaming", "stream", "live-stream"])
  , ("on-device", ["on-device", "mobile", "edge", "quantized", "onnx", "tensorrt"])
  , ("batch", ["batch", "offline", "scheduled"])
  , ("world-model", ["world-model", "world model", "predictive-model"])
  , ("simulation", ["simulation", "simulator", "sim", "physics"])
  , ("agents", ["agent", "autonomous", "tool-use", "function-calling", "agentic"])
  , ("environment", ["environment", "gym", "embodied", "robotics"])
  , ("rag", ["rag", "retrieval", "vector-db", "embedding"]) ]

/-- One block of `if any(kw in all_topics for kw in ...): tags.append(tag)`
statements, applied in order. -/
def rowTags (hay : String) (rows : List (String × List String)) : List String :=
  rows.filterMap fun r => if r.2.any (fun kw => strContains hay kw) then some r.1 else none

/-- The license bucket chain (lines 268-278): `if license_info:` is Python
truthiness, so `None` and the empty string both fall to `"unclear-license"`. -/
def licenseTag (license_info : Option String) : String :=
  match license_info with
  | none => "unclear-license"
  | some s =>
    if s = "" then "unclear-license"
    else
      let l := strLower s
      if ["mit", "apache", "bsd", "isc"].any (fun lic => strContains l lic) then "permissive"
      else if ["cc-by-nc", "non-commercial", "research-only", "gpl"].any (fun lic => strContains l lic) then "restricted"
      else "unclear-license"

/-- Function `extract_tags(text, topics, license_info)` (lines 167-316); the final
`list(set(tags))` is modelled by `List.dedup`, which is membership-equivalent
to it (Python set order is unspecified). -/
def extract_tags (text : String) (topics : List String) (license_info : Option String) : List String :=
  let hay := haystack text topics
  (rowTags hay keywordRows1 ++ [licenseTag license_info] ++ rowTags hay keywordRows2).dedup

/-! ## Composite scorer (`compute_scores`, fetch.py lines 318-440) -/

/-- One entry of the `contributors` list (only `contributions` is read). -/
structure Contrib where
  contributions : ℕ
deriving DecidableEq

/-- The fields of the nested `health` dict read by `compute_scores`. -/
structure HealthView where
  health_score : ℚ
  contributors_90d : ℕ

/-- The fields of a project dict read by `compute_scores`; `health := none`
models `item.get("health", {})` returning the empty default. -/
structure Item where
  stars : ℕ
  forks : ℕ
  downloads : ℕ
  likes : ℕ
  days_since_update : ℕ
  health : Option HealthView
  contributors : List Contrib

/-- The score triple returned by `compute_scores`. -/
structure Scores where
  popularity_score : ℚ
  health_score : ℚ
  people_score : ℚ
deriving DecidableEq

/-- Line 359: the health score of the nested health dict, default 0. -/
def healthScoreField (item : Item) : ℚ :=
  (item.health.map HealthView.health_score).getD 0

/-- Line 369: the 90-day contributor count of the nested health dict,
defaulting to the length of the contributors list. -/
def activeMaintainers (item : Item) : ℕ :=
  (item.health.map HealthView.contributors_90d).getD item.contributors.length

/-- Maintainer bench depth (lines 374-385): contributors beyond the first with
more than 5% of the work of the top contributor, log-scaled against reference 5;
only awarded when the top contributor has positive contributions. -/
def benchScore (lg : ℚ → ℚ) (c0 : Contrib) (tail : List Contrib) : ℚ :=
  if 0 < c0.contributions then
    let top : ℚ := (c0.contributions : ℚ)
    let significant : ℕ :=
      (tail.filter fun c => decide (top * (1/20) < (c.contributions : ℚ))).length
    clamp (lg (significant : ℚ) / lg 5) * 30
  else 0

/-- Ownership concentration (lines 387-404): step function of the top
share of the top contributor among all contributions; nothing is added when the total is
zero. -/
def busScore (c0 : Contrib) (tail : List Contrib) : ℚ :=
  let total : ℚ := ((c0 :: tail).map fun c => (c.contributions : ℚ)).sum
  if 0 < total then
    let top_share := (c0.contributions : ℚ) / total
    if 7/10 < top_share then 10
    else if 1/2 < top_share then 20
    else if top_share < 3/20 then 15
    else 30
  else 0

/-- The GitHub people score accumulation (lines 363-407), before the
`min(·, 100)` cap and rounding: bench and bus contributions are only added
when at least two contributors are known, a shorter list gets the flat solo
bonus of 5. -/
def peopleGithub (lg : ℚ → ℚ) (item : Item) : ℚ :=
  let maintainer_score := clamp (lg ((activeMaintainers item : ℕ) : ℚ) / lg 10) * 40
  match item.contributors with
  | c0 :: c1 :: rest =>
    maintainer_score + benchScore lg c0 (c1 :: rest) + busScore c0 (c1 :: rest)
  | _ => maintainer_score + 5

/-- The GitHub popularity score (lines 342-354): both log-normalized terms are
individually clamped to [0,1] before weighting, then the sum is capped at 100. -/
def popularityGithub (lg : ℚ → ℚ) (item : Item) : ℚ :=
  let stars_log := clamp (lg (item.stars : ℚ) / lg 10000) * 70
  let forks_log := clamp (lg (item.forks : ℚ) / lg 2000) * 20
  round1 (min (stars_log + forks_log + 10) 100)

/-- The GitHub health score (lines 358-359). -/
def healthGithub (item : Item) : ℚ := round1 (healthScoreField item * 100)

/-- The HF popularity score (lines 413-418). -/
def popularityHf (item : Item) : ℚ :=
  min ((item.downloads : ℚ) / 10000 * (7/10) + (item.likes : ℚ) / 100 * (3/10)) 100

/-- The HF health score step function (lines 421-431). -/
def healthHf (item : Item) : ℚ :=
  if item.days_since_update = 0 then 50
  else if item.days_since_update < 30 then 80
  else if item.days_since_update < 90 then 60
  else if item.days_since_update < 180 then 40
  else 20

/-- The HF people score (line 434). -/
def peopleHf (item : Item) : ℚ := min ((item.downloads : ℚ) / 50000 * 50) 50

/-- Function `compute_scores(item, source)` (lines 318-440): an unrecognized `source`
leaves the initial zeros untouched; every branch ends with the final
`round(·, 1)` loop of lines 437-438. -/
def compute_scores (lg : ℚ → ℚ) (item : Item) (source : String) : Scores :=
  let s : Scores :=
    if source = "github" then
      { popularity_score := popularityGithub lg item
        health_score := healthGithub item
        people_score := round1 (min (peopleGithub lg item) 100) }
    else if source = "hf" then
      { popularity_score := popularityHf item
        health_score := healthHf item
        people_score := peopleHf item }
    else { popularity_score := 0, health_score := 0, people_score := 0 }
  { popularity_score := round1 s.popularity_score
    health_score := round1 s.health_score
    people_score := round1 s.people_score }

/-- The legacy aggregate written by the fetchers (lines 895 and 1074):
`round((popularity + health + people) / 3, 1)`. -/
def project_score (s : Scores) : ℚ :=
  round1 ((s.popularity_score + s.health_score + s.people_score) / 3)

/-- The popularity formula as the design document §8 words it: a single cap of
the unclamped weighted sum at 100.  Stated from the spec, for comparison with
`popularityGithub` (the source clamps each term first). -/
def specPopularityGithub (lg : ℚ → ℚ) (stars forks : ℕ) : ℚ :=
  round1 (min (70 * (lg (stars : ℚ) / lg 10000) + 20 * (lg (forks : ℚ) / lg 2000) + 10) 100)

/-! ## Health scorer (pure tail of `fetch_health_signals_comprehensive`,
fetch.py lines 661-757)

The network retrieval that fills the counters is out of scope; the score
computation from a filled counter record (step 7 and 8 of the function) is
embedded here. -/

/-- The counters of the health signal bundle that feed the score. -/
structure HealthSignals where
  days_since_push : ℕ
  days_since_release : Option ℕ
  commits_30d : ℕ
  commits_90d : ℕ
  contributors_30d : ℕ
  contributors_90d : ℕ
  new_contributors_90d : ℕ
  prs_merged_60d : ℕ
  issues_opened_60d : ℕ
  issues_closed_60d : ℕ
  pr_merge_latency_days : Option ℕ
  issue_close_latency_days : Option ℕ

/-- The discrete label step (lines 752-757): inclusive lower bounds 0.70 and
0.40. -/
def healthLabel (s : ℚ) : String :=
  if 7/10 ≤ s then "alive"
  else if 2/5 ≤ s then "steady"
  else "decaying"

/-- Recency (lines 665-671): exponential decay of the most recent maintainer
event, release age defaulting to 999. -/
def recencyScore (decay : ℚ → ℚ) (h : HealthSignals) : ℚ :=
  clamp (decay ((min h.days_since_push (h.days_since_release.getD 999) : ℕ) : ℚ))

/-- Contributor diversity bonus (lines 678-689). -/
def diversityBonus (h : HealthSignals) : ℚ :=
  if 0 < h.contributors_90d then
    let churn : ℚ := (h.new_contributors_90d : ℚ) / (h.contributors_90d : ℚ)
    if 1/10 ≤ churn ∧ churn ≤ 3/10 then 1
    else if churn < 1/10 then 7/10 + churn / (1/10) * (3/10)
    else max (1/2) (1 - (churn - 3/10) * (1/2))
  else 1/2

/-- Activity (lines 673-691): 0.5 PR volume + 0.3 contributor breadth +
0.2 diversity. -/
def activityScore (lg : ℚ → ℚ) (h : HealthSignals) : ℚ :=
  let pr_activity := clamp (lg (h.prs_merged_60d : ℚ) / lg 20)
  let contrib_activity := clamp (lg (h.contributors_90d : ℚ) / lg 15)
  1/2 * pr_activity + 3/10 * contrib_activity + 1/5 * diversityBonus h

/-- PR merge latency curve (lines 698-707). -/
def prLatencyResp (latency : ℕ) : ℚ :=
  if latency < 7 then 1
  else if latency < 30 then clamp (1 - ((latency : ℚ) - 7) / 23 * (2/5))
  else max (1/5) (clamp (1 - (latency : ℚ) / 90))

/-- Issue close latency curve (lines 710-719). -/
def issueLatencyResp (latency : ℕ) : ℚ :=
  if latency < 14 then 1
  else if latency < 60 then clamp (1 - ((latency : ℚ) - 14) / 46 * (2/5))
  else max (1/5) (clamp (1 - (latency : ℚ) / 180))

/-- Responsiveness (lines 693-731): mean of the available components, neutral
0.7 when none is available. -/
def responsivenessScore (h : HealthSignals) : ℚ :=
  let comps : List ℚ :=
    (h.pr_merge_latency_days.map prLatencyResp).toList
    ++ (h.issue_close_latency_days.map issueLatencyResp).toList
    ++ (if 0 < h.issues_opened_60d then
          [clamp ((h.issues_closed_60d : ℚ) / (h.issues_opened_60d : ℚ))]
        else [])
  if comps.isEmpty then 7/10 else comps.sum / (comps.length : ℚ)

/-- Release cadence step function (lines 734-744). -/
def releaseScore (h : HealthSignals) : ℚ :=
  match h.days_since_release with
  | some d => if d < 30 then 1 else if d < 90 then 7/10 else if d < 180 then 2/5 else 1/5
  | none => 1/2

/-- The computed part of the bundle. -/
structure HealthBundle where
  health_score : ℚ
  health_label : String

/-- Steps 7 and 8 of `fetch_health_signals_comprehensive` (lines 661-757):
`health_score = 0.30*rec + 0.20*activity + 0.35*responsiveness +
0.15*release_score`, then the label. -/
def computeHealth (lg decay : ℚ → ℚ) (h : HealthSignals) : HealthBundle :=
  let score := 3/10 * recencyScore decay h + 1/5 * activityScore lg h
    + 7/20 * responsivenessScore h + 3/20 * releaseScore h
  { health_score := score, health_label := healthLabel score }

/-! ## Health cache freshness (`is_cache_valid`, fetch.py lines 72-78) -/

/-- The value found under the `fetched_at` key, as seen by
`datetime.fromisoformat`: either a parseable timestamp (modelled as seconds) or
a malformed value on which the parser raises. -/
inductive FetchedAtVal where
  | malformed
  | stamp (t : ℚ)
deriving DecidableEq

/-- Function `is_cache_valid(cached_entry)` (lines 72-78), with `utcnow` passed in as
`now` (seconds).  The argument is `none` for a falsy entry (`None` or `{}`),
`some none` for a truthy entry without a `fetched_at` key, and
`some (some v)` otherwise.  `Except.error` models an uncaught exception from
`datetime.fromisoformat`. -/
def is_cache_valid (entry : Option (Option FetchedAtVal)) (now : ℚ) : Except Unit Bool :=
  match entry with
  | none => .ok false
  | some none => .ok false
  | some (some .malformed) => .error ()
  | some (some (.stamp t)) => .ok (decide ((now - t) / 3600 < 12))

/-! ## Tag shards (`generate_sharded_index`, fetch.py lines 1385-1405)

Tag shards are built from the lightweight index items; `to_index_item`
(line 1320) truncates the tag list of each project to `tags_top = tags[:5]`. -/

/-- The fields of an index item read by the tag-shard step. -/
structure IndexItem where
  source : String
  tags_top : List String
deriving DecidableEq

/-- The truncation `tags[:5]` from `to_index_item` (line 1320). -/
def tagsTop (tags : List String) : List String := tags.take 5

/-- All `tags_top` occurrences across the item list, in order (the stream of
`tag_counts[tag] += 1` updates of lines 1386-1389). -/
def tagOccurrences (items : List IndexItem) : List String :=
  items.flatMap fun it => it.tags_top

/-- The keys of the `tag_counts` dict, in insertion order. -/
def tagKeys (items : List IndexItem) : List String :=
  (tagOccurrences items).dedup

/-- The count stored under `tag` in the `tag_counts` dict. -/
def tagCount (items : List IndexItem) (tag : String) : ℕ :=
  (tagOccurrences items).count tag

/-- Line 1395: the sublist of index items whose `tags_top` carries the tag. -/
def itemsWithTag (items : List IndexItem) (tag : String) : List IndexItem :=
  items.filter fun it => it.tags_top.contains tag

/-- The tag shards written by lines 1391-1405: one `(tag, shard)` pair per
`tag_counts` entry with count at least `min_shard_size = 25`. -/
def tagShards (items : List IndexItem) : List (String × List IndexItem) :=
  (tagKeys items).filterMap fun tag =>
    if 25 ≤ tagCount items tag then some (tag, itemsWithTag items tag) else none

/-! ## Concrete inputs used by the end-to-end theorems -/

/-- Health signals where every sub-signal is at its best value: pushed and
released today, 20 merged PRs, 15 recent contributors with 20% churn,
instant PR/issue latencies, balanced issue throughput. -/
def perfectSignals : HealthSignals :=
  { days_since_push := 0
    days_since_release := some 0
    commits_30d := 100
    commits_90d := 300
    contributors_30d := 10
    contributors_90d := 15
    new_contributors_90d := 3
    prs_merged_60d := 20
    issues_opened_60d := 10
    issues_closed_60d := 10
    pr_merge_latency_days := some 0
    issue_close_latency_days := some 0 }

/-- The §8 scenario entity: stars 12000, forks 800, carrying a health object
with the given 0..1 health score. -/
def entityC9 (hs : ℚ) : Item :=
  { stars := 12000
    forks := 800
    downloads := 0
    likes := 0
    days_since_update := 0
    health := some { health_score := hs, contributors_90d := 15 }
    contributors := [] }

/-- A concrete executable stand-in for `log1p` used to instantiate the
parametric theorems on an input: positive at the reference scales and
constant elsewhere. -/
def lgWit : ℚ → ℚ := fun q => if q = 800 then 1 else if q = 2000 then 2 else 1

/-- A concrete executable stand-in for the half-life decay `0.5 ** (d / 30)`
used to instantiate the parametric theorems at `d = 0`. -/
def decayWit : ℚ → ℚ := fun _ => 1

/-! ## Helper lemmas -/

theorem clamp_nonneg (x : ℚ) : 0 ≤ clamp x := le_max_left _ _

theorem clamp_le_one (x : ℚ) : clamp x ≤ 1 :=
  max_le zero_le_one (min_le_left _ _)

theorem clamp_of_one_le {x : ℚ} (h : 1 ≤ x) : clamp x = 1 := by
  unfold clamp
  rw [min_eq_left h]
  exact max_eq_right zero_le_one

theorem round1_mono {x y : ℚ} (h : x ≤ y) : round1 x ≤ round1 y := by
  unfold round1
  have h10 : x * 10 ≤ y * 10 := by linarith
  have hr : round (x * 10) ≤ round (y * 10) := by
    rw [round_eq, round_eq]
    exact Int.floor_le_floor (by linarith)
  have hc : ((round (x * 10) : ℤ) : ℚ) ≤ ((round (y * 10) : ℤ) : ℚ) := by
    exact_mod_cast hr
  linarith

theorem round1_nonneg {x : ℚ} (h : 0 ≤ x) : 0 ≤ round1 x := by
  have h0 : round1 0 = 0 := by norm_num [round1]
  calc (0 : ℚ) = round1 0 := h0.symm
    _ ≤ round1 x := round1_mono h

theorem round1_le_100 {x : ℚ} (h : x ≤ 100) : round1 x ≤ 100 := by
  have h0 : round1 100 = 100 := by norm_num [round1, round_eq]
  calc round1 x ≤ round1 100 := round1_mono h
    _ = 100 := h0

theorem round1_idem (x : ℚ) : round1 (round1 x) = round1 x := by
  unfold round1
  rw [div_mul_cancel₀ _ (by norm_num : (10 : ℚ) ≠ 0)]
  rw [round_intCast]

theorem benchScore_nonneg (lg : ℚ → ℚ) (c0 : Contrib) (tail : List Contrib) :
    0 ≤ benchScore lg c0 tail := by
  unfold benchScore
  split_ifs
  · exact mul_nonneg (clamp_nonneg _) (by norm_num)
  · exact le_refl 0

theorem busScore_nonneg (c0 : Contrib) (tail : List Contrib) :
    0 ≤ busScore c0 tail := by
  unfold busScore
  dsimp only
  split_ifs <;> norm_num

theorem peopleGithub_nonneg (lg : ℚ → ℚ) (item : Item) : 0 ≤ peopleGithub lg item := by
  have hm := clamp_nonneg (lg ((activeMaintainers item : ℕ) : ℚ) / lg 10)
  unfold peopleGithub
  rcases item.contributors with - | ⟨c0, tl⟩
  · linarith
  · rcases tl with - | ⟨c1, rest⟩
    · linarith
    · have hb := benchScore_nonneg lg c0 (c1 :: rest)
      have hbs := busScore_nonneg c0 (c1 :: rest)
      linarith

theorem prLatencyResp_bounds (latency : ℕ) :
    0 ≤ prLatencyResp latency ∧ prLatencyResp latency ≤ 1 := by
  unfold prLatencyResp
  split_ifs
  · norm_num
  · exact ⟨clamp_nonneg _, clamp_le_one _⟩
  · exact ⟨le_trans (by norm_num) (le_max_left _ _), max_le (by norm_num) (clamp_le_one _)⟩

theorem issueLatencyResp_bounds (latency : ℕ) :
    0 ≤ issueLatencyResp latency ∧ issueLatencyResp latency ≤ 1 := by
  unfold issueLatencyResp
  split_ifs
  · norm_num
  · exact ⟨clamp_nonneg _, clamp_le_one _⟩
  · exact ⟨le_trans (by norm_num) (le_max_left _ _), max_le (by norm_num) (clamp_le_one _)⟩

theorem diversityBonus_bounds (h : HealthSignals) :
    0 ≤ diversityBonus h ∧ diversityBonus h ≤ 1 := by
  unfold diversityBonus
  dsimp only
  have hchurn : (0 : ℚ) ≤ (h.new_contributors_90d : ℚ) / (h.contributors_90d : ℚ) :=
    div_nonneg (Nat.cast_nonneg _) (Nat.cast_nonneg _)
  split_ifs with h0 h1 h2
  · norm_num
  · constructor <;> nlinarith [hchurn]
  · have hgt : (3/10 : ℚ) < (h.new_contributors_90d : ℚ) / (h.contributors_90d : ℚ) := by
      by_contra hle
      exact h1 ⟨not_lt.mp h2, not_lt.mp hle⟩
    constructor
    · exact le_trans (by norm_num) (le_max_left _ _)
    · exact max_le (by norm_num) (by nlinarith)
  · norm_num

theorem activityScore_bounds (lg : ℚ → ℚ) (h : HealthSignals) :
    0 ≤ activityScore lg h ∧ activityScore lg h ≤ 1 := by
  unfold activityScore
  dsimp only
  have h1 := clamp_nonneg (lg (h.prs_merged_60d : ℚ) / lg 20)
  have h2 := clamp_le_one (lg (h.prs_merged_60d : ℚ) / lg 20)
  have h3 := clamp_nonneg (lg (h.contributors_90d : ℚ) / lg 15)
  have h4 := clamp_le_one (lg (h.contributors_90d : ℚ) / lg 15)
  have h5 := diversityBonus_bounds h
  constructor <;> linarith [h5.1, h5.2]

theorem responsivenessScore_bounds (h : HealthSignals) :
    0 ≤ responsivenessScore h ∧ responsivenessScore h ≤ 1 := by
  unfold responsivenessScore
  dsimp only
  set comps : List ℚ :=
    (h.pr_merge_latency_days.map prLatencyResp).toList
    ++ (h.issue_close_latency_days.map issueLatencyResp).toList
    ++ (if 0 < h.issues_opened_60d then
          [clamp ((h.issues_closed_60d : ℚ) / (h.issues_opened_60d : ℚ))]
        else []) with hcomps
  have hmem : ∀ x ∈ comps, 0 ≤ x ∧ x ≤ 1 := by
    intro x hx
    rw [hcomps] at hx
    simp only [List.mem_append] at hx
    rcases hx with (hx | hx) | hx
    · rcases hpr : h.pr_merge_latency_days with - | L
      · rw [hpr] at hx
        exact absurd hx (List.not_mem_nil x)
      · rw [hpr] at hx
        have hx2 : x ∈ [prLatencyResp L] := hx
        rw [List.mem_singleton] at hx2
        exact hx2 ▸ prLatencyResp_bounds L
    · rcases hiss : h.issue_close_latency_days with - | L
      · rw [hiss] at hx
        exact absurd hx (List.not_mem_nil x)
      · rw [hiss] at hx
        have hx2 : x ∈ [issueLatencyResp L] := hx
        rw [List.mem_singleton] at hx2
        exact hx2 ▸ issueLatencyResp_bounds L
    · by_cases h0 : 0 < h.issues_opened_60d
      · rw [if_pos h0] at hx
        rw [List.mem_singleton] at hx
        exact hx ▸ ⟨clamp_nonneg _, clamp_le_one _⟩
      · rw [if_neg h0] at hx
        cases hx
  split_ifs with hempty
  · norm_num
  · have hne : comps ≠ [] := by
      intro hc
      rw [hc] at hempty
      exact hempty rfl
    have hlen : 0 < comps.length := List.length_pos.mpr hne
    have hlenq : (0 : ℚ) < (comps.length : ℚ) := by exact_mod_cast hlen
    have hsum0 : 0 ≤ comps.sum := List.sum_nonneg fun x hx => (hmem x hx).1
    have hsum1 : comps.sum ≤ (comps.length : ℚ) := by
      have := List.sum_le_card_nsmul comps 1 fun x hx => (hmem x hx).2
      simpa using this
    constructor
    · exact div_nonneg hsum0 (le_of_lt hlenq)
    · rw [div_le_one hlenq]
      exact hsum1

theorem releaseScore_bounds (h : HealthSignals) :
    0 ≤ releaseScore h ∧ releaseScore h ≤ 1 := by
  unfold releaseScore
  rcases h.days_since_release with - | d
  · norm_num
  · dsimp only
    split_ifs <;> norm_num

/-- The health scorer always produces a score in [0,1] (for any stand-ins for
`log1p` and the decay, since every sub-signal is clamped), justifying the
0..1 health-score invariant assumed of the entity health object. -/
theorem computeHealth_score_bounds (lg decay : ℚ → ℚ) (h : HealthSignals) :
    0 ≤ (computeHealth lg decay h).health_score
    ∧ (computeHealth lg decay h).health_score ≤ 1 := by
  have hs : (computeHealth lg decay h).health_score
      = 3/10 * recencyScore decay h + 1/5 * activityScore lg h
        + 7/20 * responsivenessScore h + 3/20 * releaseScore h := rfl
  have h1 : 0 ≤ recencyScore decay h := clamp_nonneg _
  have h2 : recencyScore decay h ≤ 1 := clamp_le_one _
  have h3 := activityScore_bounds lg h
  have h4 := responsivenessScore_bounds h
  have h5 := releaseScore_bounds h
  rw [hs]
  constructor <;> linarith [h3.1, h3.2, h4.1, h4.2, h5.1, h5.2]

/-! ## Claim theorems -/

/-- Claim C4: the discrete health label is determined by the 0..1 health score
with inclusive lower bounds; a score of exactly 0.70 yields "alive", 0.699
yields "steady", exactly 0.40 yields "steady", 0.399 yields "decaying", and
the label of the bundle is exactly this function of its score. -/
theorem health_label_thresholds :
    healthLabel (7/10) = "alive" ∧ healthLabel (699/1000) = "steady"
    ∧ healthLabel (2/5) = "steady" ∧ healthLabel (399/1000) = "decaying"
    ∧ (∀ s : ℚ, (healthLabel s = "alive" ↔ 7/10 ≤ s)
        ∧ (healthLabel s = "steady" ↔ 2/5 ≤ s ∧ s < 7/10)
        ∧ (healthLabel s = "decaying" ↔ s < 2/5))
    ∧ (∀ (lg decay : ℚ → ℚ) (h : HealthSignals),
        (computeHealth lg decay h).health_label
          = healthLabel (computeHealth lg decay h).health_score) := by
  refine ⟨by norm_num [healthLabel], by norm_num [healthLabel],
    by norm_num [healthLabel], by norm_num [healthLabel], ?_, fun lg decay h => rfl⟩
  intro s
  unfold healthLabel
  split_ifs with h1 h2
  · exact ⟨iff_of_true rfl h1,
      iff_of_false (by decide) (fun hc => absurd h1 (not_le.mpr hc.2)),
      iff_of_false (by decide) (not_lt.mpr (le_trans (by norm_num) h1))⟩
  · exact ⟨iff_of_false (by decide) h1,
      iff_of_true rfl ⟨h2, not_le.mp h1⟩,
      iff_of_false (by decide) (not_lt.mpr h2)⟩
  · exact ⟨iff_of_false (by decide) h1,
      iff_of_false (by decide) (fun hc => absurd hc.1 h2),
      iff_of_true rfl (not_le.mp h2)⟩

/-- Claim C5 (amended): freshness is `(now - fetched_at) / 3600 < 12` for a
parseable entry; an empty entry or one without a `fetched_at` key is not
fresh; but an entry whose `fetched_at` value is malformed makes the check
raise (propagate an exception) instead of being treated as not fresh. -/
theorem is_cache_valid_spec :
    (∀ now t : ℚ,
      is_cache_valid (some (some (.stamp t))) now = .ok true ↔ (now - t) / 3600 < 12)
    ∧ (∀ now : ℚ, is_cache_valid none now = .ok false)
    ∧ (∀ now : ℚ, is_cache_valid (some none) now = .ok false)
    ∧ (∀ now : ℚ, is_cache_valid (some (some .malformed)) now = .error ()) := by
  refine ⟨?_, fun now => rfl, fun now => rfl, fun now => rfl⟩
  intro now t
  simp [is_cache_valid]

/-- Claim C5 counterexample: on a concrete malformed entry the check raises
(models an uncaught `ValueError` from `datetime.fromisoformat`), so it is
neither "treated as not fresh" nor exception-free. -/
theorem is_cache_valid_raises_cx :
    is_cache_valid (some (some .malformed)) 0 = .error ()
    ∧ ∀ b : Bool, is_cache_valid (some (some .malformed)) 0 ≠ .ok b := by
  exact ⟨rfl, fun b h => by simp [is_cache_valid] at h⟩

/-- Claim C10: any source string other than "github" and "hf" falls through
both branches of `compute_scores` and returns the initial all-zero score
triple (no exception). -/
theorem unknown_source_zero_scores (lg : ℚ → ℚ) (item : Item) (source : String)
    (hg : source ≠ "github") (hh : source ≠ "hf") :
    compute_scores lg item source
      = { popularity_score := 0, health_score := 0, people_score := 0 } := by
  unfold compute_scores
  rw [if_neg hg, if_neg hh]
  norm_num [round1]

/-- Claim C10 witness: the stored source value of the entity record,
"huggingface" (instead of the "hf" the scorer expects), yields all-zero
scores. -/
theorem unknown_source_zero_scores_wit :
    ("huggingface" : String) ≠ "github" ∧ ("huggingface" : String) ≠ "hf"
    ∧ compute_scores (fun q => q)
        { stars := 12000, forks := 800, downloads := 90000, likes := 450,
          days_since_update := 3, health := none, contributors := [] } "huggingface"
      = { popularity_score := 0, health_score := 0, people_score := 0 } :=
  ⟨by decide, by decide,
    unknown_source_zero_scores _ _ _ (by decide) (by decide)⟩

/-- Claim C7 (code evaluation): `momentum_score = clamp(normalized_growth*100)`
uses `clamp` at its default bounds, so the legacy momentum score never exceeds
1 and the legacy "rising" branch (score ≥ 5) is unreachable; the input
stars 100 with previous stars 50 (normalized growth 1/2, 1..100-scaled score
50) is labelled "steady" with a stored score of 1. -/
theorem legacy_rising_unreachable :
    (∀ (lg : ℚ → ℚ) (cur : CurMetrics) (prev : PrevMetrics) (w : ℚ),
      (compute_momentum lg cur prev w).momentum_score ≤ 1
      ∧ (compute_momentum lg cur prev w).momentum_label ≠ "rising")
    ∧ (compute_momentum (fun q => q) ⟨"github", 100, 0, 0, 0⟩ ⟨50, 0, 0, 0⟩ 1).momentum_score = 1
    ∧ (compute_momentum (fun q => q) ⟨"github", 100, 0, 0, 0⟩ ⟨50, 0, 0, 0⟩ 1).momentum_label = "steady" := by
  refine ⟨?_, ?_, ?_⟩
  · intro lg cur prev w
    have hs : (compute_momentum lg cur prev w).momentum_score = momentumScore lg cur prev := rfl
    have hb : momentumScore lg cur prev ≤ 1 := by
      unfold momentumScore
      split_ifs <;> exact clamp_le_one _
    refine ⟨hs ▸ hb, ?_⟩
    have hl : (compute_momentum lg cur prev w).momentum_label
        = (if (5 : ℚ) ≤ momentumScore lg cur prev then "rising"
           else if (1 : ℚ) ≤ momentumScore lg cur prev then "steady" else "flat") := rfl
    rw [hl, if_neg (by linarith : ¬ (5 : ℚ) ≤ momentumScore lg cur prev)]
    split_ifs <;> decide
  · show momentumScore (fun q => q) ⟨"github", 100, 0, 0, 0⟩ ⟨50, 0, 0, 0⟩ = 1
    norm_num [momentumScore, starsMomentum, clamp]
  · show (if (5 : ℚ) ≤ momentumScore (fun q => q) ⟨"github", 100, 0, 0, 0⟩ ⟨50, 0, 0, 0⟩ then "rising"
      else if (1 : ℚ) ≤ momentumScore (fun q => q) ⟨"github", 100, 0, 0, 0⟩ ⟨50, 0, 0, 0⟩ then "steady"
      else "flat") = "steady"
    norm_num [momentumScore, starsMomentum, clamp]

/-- Claim C1 (amended): with no prior snapshot entry (empty previous metrics)
each delta equals the corresponding current metric value (subtraction against
a zero-valued previous), and both momentum labels are "flat" when the current
stars, downloads and likes are themselves zero (the labels do not read
forks). -/
theorem momentum_first_run (lg : ℚ → ℚ) (cur : CurMetrics) (w : ℚ) :
    (compute_momentum lg cur emptyPrev w).stars_delta = (cur.stars : ℤ)
    ∧ (compute_momentum lg cur emptyPrev w).forks_delta = (cur.forks : ℤ)
    ∧ (compute_momentum lg cur emptyPrev w).downloads_delta = (cur.downloads : ℤ)
    ∧ (compute_momentum lg cur emptyPrev w).likes_delta = (cur.likes : ℤ)
    ∧ (cur.stars = 0 → cur.downloads = 0 → cur.likes = 0 →
        (compute_momentum lg cur emptyPrev w).momentum_label = "flat"
        ∧ (compute_momentum lg cur emptyPrev w).momentum_label_v2 = "flat") := by
  refine ⟨by simp [compute_momentum, emptyPrev], by simp [compute_momentum, emptyPrev],
    by simp [compute_momentum, emptyPrev], by simp [compute_momentum, emptyPrev], ?_⟩
  intro hs hd hl
  have hsm : starsMomentum lg cur emptyPrev = 0 := by
    unfold starsMomentum
    rw [if_neg (by omega)]
  have hdm : downloadsMomentum lg cur emptyPrev = 0 := by
    unfold downloadsMomentum
    rw [if_neg (by omega)]
  have hlm : likesMomentum lg cur emptyPrev = 0 := by
    unfold likesMomentum
    rw [if_neg (by omega)]
  have hng : normalizedGrowth lg cur emptyPrev = 0 := by
    unfold normalizedGrowth
    rw [hsm, hdm, hlm]
    split_ifs <;> norm_num
  have hscore : momentumScore lg cur emptyPrev = 0 := by
    unfold momentumScore
    rw [hsm, hng]
    split_ifs <;> norm_num [clamp]
  constructor
  · show (if (5 : ℚ) ≤ momentumScore lg cur emptyPrev then "rising"
      else if (1 : ℚ) ≤ momentumScore lg cur emptyPrev then "steady" else "flat") = "flat"
    rw [hscore]
    norm_num
  · show (if baselineOf cur < 1000 ∧ (1/10 : ℚ) < normalizedGrowth lg cur emptyPrev then "breakout"
      else if (1/20 : ℚ) < normalizedGrowth lg cur emptyPrev then "rising" else "flat") = "flat"
    rw [hng]
    norm_num

/-- Claim C1 counterexample: a first run (empty previous metrics) for a GitHub
entity with current stars 500 and forks 2 reports a stars delta of 500 (not
0), v2 label "breakout" and legacy label "steady" (not "flat"). -/
theorem momentum_first_run_cx :
    (compute_momentum (fun q => q) ⟨"github", 500, 2, 0, 0⟩ emptyPrev 1).stars_delta = 500
    ∧ (compute_momentum (fun q => q) ⟨"github", 500, 2, 0, 0⟩ emptyPrev 1).forks_delta = 2
    ∧ (compute_momentum (fun q => q) ⟨"github", 500, 2, 0, 0⟩ emptyPrev 1).momentum_label_v2 = "breakout"
    ∧ (compute_momentum (fun q => q) ⟨"github", 500, 2, 0, 0⟩ emptyPrev 1).momentum_label = "steady" := by
  refine ⟨by simp [compute_momentum, emptyPrev], by simp [compute_momentum, emptyPrev], ?_, ?_⟩
  · show (if baselineOf ⟨"github", 500, 2, 0, 0⟩ < 1000
        ∧ (1/10 : ℚ) < normalizedGrowth (fun q => q) ⟨"github", 500, 2, 0, 0⟩ emptyPrev then "breakout"
      else if (1/20 : ℚ) < normalizedGrowth (fun q => q) ⟨"github", 500, 2, 0, 0⟩ emptyPrev then "rising"
      else "flat") = "breakout"
    norm_num [baselineOf, normalizedGrowth, starsMomentum, emptyPrev]
  · show (if (5 : ℚ) ≤ momentumScore (fun q => q) ⟨"github", 500, 2, 0, 0⟩ emptyPrev then "rising"
      else if (1 : ℚ) ≤ momentumScore (fun q => q) ⟨"github", 500, 2, 0, 0⟩ emptyPrev then "steady"
      else "flat") = "steady"
    norm_num [momentumScore, starsMomentum, emptyPrev, clamp]

/-- Claim C1 witness: the all-zero current metrics do report zero deltas and
both labels "flat" on a first run. -/
theorem momentum_first_run_wit :
    (compute_momentum (fun q => q) ⟨"github", 0, 0, 0, 0⟩ emptyPrev 1).momentum_label = "flat"
    ∧ (compute_momentum (fun q => q) ⟨"github", 0, 0, 0, 0⟩ emptyPrev 1).momentum_label_v2 = "flat" :=
  (momentum_first_run (fun q => q) ⟨"github", 0, 0, 0, 0⟩ 1).2.2.2.2 rfl rfl rfl

/-- Claim C6: the v2 label is "breakout" exactly when the baseline (first
non-zero of stars then downloads) is below 1000 and normalized growth exceeds
0.10, otherwise "rising" exactly when normalized growth exceeds 0.05,
otherwise "flat"; stars 500 with normalized growth 0.15 labels "breakout" and
stars 5000 with normalized growth 0.15 labels "rising". -/
theorem momentum_v2_labels (lg : ℚ → ℚ) (cur : CurMetrics) (prev : PrevMetrics) (w : ℚ) :
    ((compute_momentum lg cur prev w).momentum_label_v2 = "breakout"
      ↔ baselineOf cur < 1000 ∧ 1/10 < normalizedGrowth lg cur prev)
    ∧ ((compute_momentum lg cur prev w).momentum_label_v2 = "rising"
      ↔ ¬(baselineOf cur < 1000 ∧ 1/10 < normalizedGrowth lg cur prev)
        ∧ 1/20 < normalizedGrowth lg cur prev)
    ∧ ((compute_momentum lg cur prev w).momentum_label_v2 = "flat"
      ↔ ¬(baselineOf cur < 1000 ∧ 1/10 < normalizedGrowth lg cur prev)
        ∧ ¬ 1/20 < normalizedGrowth lg cur prev)
    ∧ (cur.stars = 500 → normalizedGrowth lg cur prev = 3/20 →
        (compute_momentum lg cur prev w).momentum_label_v2 = "breakout")
    ∧ (cur.stars = 5000 → normalizedGrowth lg cur prev = 3/20 →
        (compute_momentum lg cur prev w).momentum_label_v2 = "rising") := by
  have hv2 : (compute_momentum lg cur prev w).momentum_label_v2
      = (if baselineOf cur < 1000 ∧ (1/10 : ℚ) < normalizedGrowth lg cur prev then "breakout"
         else if (1/20 : ℚ) < normalizedGrowth lg cur prev then "rising" else "flat") := rfl
  have hmain : ((compute_momentum lg cur prev w).momentum_label_v2 = "breakout"
      ↔ baselineOf cur < 1000 ∧ 1/10 < normalizedGrowth lg cur prev)
    ∧ ((compute_momentum lg cur prev w).momentum_label_v2 = "rising"
      ↔ ¬(baselineOf cur < 1000 ∧ 1/10 < normalizedGrowth lg cur prev)
        ∧ 1/20 < normalizedGrowth lg cur prev)
    ∧ ((compute_momentum lg cur prev w).momentum_label_v2 = "flat"
      ↔ ¬(baselineOf cur < 1000 ∧ 1/10 < normalizedGrowth lg cur prev)
        ∧ ¬ 1/20 < normalizedGrowth lg cur prev) := by
    rw [hv2]
    split_ifs with h1 h2
    · exact ⟨iff_of_true rfl h1, iff_of_false (by decide) (fun hc => hc.1 h1),
        iff_of_false (by decide) (fun hc => hc.1 h1)⟩
    · exact ⟨iff_of_false (by decide) (fun hc => h1 hc), iff_of_true rfl ⟨h1, h2⟩,
        iff_of_false (by decide) (fun hc => hc.2 h2)⟩
    · exact ⟨iff_of_false (by decide) (fun hc => h1 hc),
        iff_of_false (by decide) (fun hc => h2 hc.2), iff_of_true rfl ⟨h1, h2⟩⟩
  refine ⟨hmain.1, hmain.2.1, hmain.2.2, ?_, ?_⟩
  · intro hst hng
    refine hmain.1.mpr ⟨?_, by rw [hng]; norm_num⟩
    unfold baselineOf
    rw [if_pos (by omega : cur.stars ≠ 0), hst]
    norm_num
  · intro hst hng
    refine hmain.2.1.mpr ⟨?_, by rw [hng]; norm_num⟩
    rintro ⟨hb, -⟩
    unfold baselineOf at hb
    rw [if_pos (by omega : cur.stars ≠ 0), hst] at hb
    omega

/-- Claim C6 witness: concrete inputs realizing normalized growth 0.15 at
stars 500 (breakout) and at stars 5000 (rising). -/
theorem momentum_v2_labels_wit :
    normalizedGrowth (fun q => if q = 500 then 20 else 3) ⟨"github", 500, 0, 0, 0⟩ ⟨497, 0, 0, 0⟩ = 3/20
    ∧ (compute_momentum (fun q => if q = 500 then 20 else 3)
        ⟨"github", 500, 0, 0, 0⟩ ⟨497, 0, 0, 0⟩ 1).momentum_label_v2 = "breakout"
    ∧ normalizedGrowth (fun q => if q = 5000 then 20 else 3) ⟨"github", 5000, 0, 0, 0⟩ ⟨4997, 0, 0, 0⟩ = 3/20
    ∧ (compute_momentum (fun q => if q = 5000 then 20 else 3)
        ⟨"github", 5000, 0, 0, 0⟩ ⟨4997, 0, 0, 0⟩ 1).momentum_label_v2 = "rising" := by
  have h1 : normalizedGrowth (fun q => if q = 500 then 20 else 3)
      ⟨"github", 500, 0, 0, 0⟩ ⟨497, 0, 0, 0⟩ = 3/20 := by
    norm_num [normalizedGrowth, starsMomentum]
  have h2 : normalizedGrowth (fun q => if q = 5000 then 20 else 3)
      ⟨"github", 5000, 0, 0, 0⟩ ⟨4997, 0, 0, 0⟩ = 3/20 := by
    norm_num [normalizedGrowth, starsMomentum]
  exact ⟨h1,
    (momentum_v2_labels (fun q => if q = 500 then 20 else 3)
      ⟨"github", 500, 0, 0, 0⟩ ⟨497, 0, 0, 0⟩ 1).2.2.2.1 rfl h1,
    h2,
    (momentum_v2_labels (fun q => if q = 5000 then 20 else 3)
      ⟨"github", 5000, 0, 0, 0⟩ ⟨4997, 0, 0, 0⟩ 1).2.2.2.2 rfl h2⟩

/-- Claim C2: for either recognized source kind, the three scores are each
within [0,100] (given the 0..1 health score invariant of the health bundle),
and the legacy aggregate equals the unweighted mean of the three rounded to
one decimal. -/
theorem compute_scores_bounded (lg : ℚ → ℚ) (item : Item) (source : String)
    (hsrc : source = "github" ∨ source = "hf")
    (hh0 : 0 ≤ healthScoreField item) (hh1 : healthScoreField item ≤ 1) :
    (0 ≤ (compute_scores lg item source).popularity_score
      ∧ (compute_scores lg item source).popularity_score ≤ 100)
    ∧ (0 ≤ (compute_scores lg item source).health_score
      ∧ (compute_scores lg item source).health_score ≤ 100)
    ∧ (0 ≤ (compute_scores lg item source).people_score
      ∧ (compute_scores lg item source).people_score ≤ 100)
    ∧ project_score (compute_scores lg item source)
      = round1 (((compute_scores lg item source).popularity_score
          + (compute_scores lg item source).health_score
          + (compute_scores lg item source).people_score) / 3) := by
  refine ⟨?_, ?_, ?_, rfl⟩ <;> rcases hsrc with h | h <;> subst h
  · have hp : (compute_scores lg item "github").popularity_score
        = round1 (popularityGithub lg item) := rfl
    rw [hp]
    have ha := clamp_nonneg (lg (item.stars : ℚ) / lg 10000)
    have hb := clamp_nonneg (lg (item.forks : ℚ) / lg 2000)
    have hin : 0 ≤ popularityGithub lg item ∧ popularityGithub lg item ≤ 100 := by
      unfold popularityGithub
      dsimp only
      constructor
      · exact round1_nonneg (le_min (by linarith) (by norm_num))
      · exact round1_le_100 (min_le_right _ _)
    exact ⟨round1_nonneg hin.1, round1_le_100 hin.2⟩
  · have hp : (compute_scores lg item "hf").popularity_score
        = round1 (popularityHf item) := rfl
    rw [hp]
    have hd : (0 : ℚ) ≤ (item.downloads : ℚ) / 10000 * (7/10) :=
      mul_nonneg (div_nonneg (Nat.cast_nonneg _) (by norm_num)) (by norm_num)
    have hl : (0 : ℚ) ≤ (item.likes : ℚ) / 100 * (3/10) :=
      mul_nonneg (div_nonneg (Nat.cast_nonneg _) (by norm_num)) (by norm_num)
    have hin : 0 ≤ popularityHf item ∧ popularityHf item ≤ 100 := by
      unfold popularityHf
      exact ⟨le_min (by linarith) (by norm_num), min_le_right _ _⟩
    exact ⟨round1_nonneg hin.1, round1_le_100 hin.2⟩
  · have hp : (compute_scores lg item "github").health_score
        = round1 (healthGithub item) := rfl
    rw [hp]
    have hin : 0 ≤ healthGithub item ∧ healthGithub item ≤ 100 := by
      unfold healthGithub
      exact ⟨round1_nonneg (by linarith), round1_le_100 (by linarith)⟩
    exact ⟨round1_nonneg hin.1, round1_le_100 hin.2⟩
  · have hp : (compute_scores lg item "hf").health_score
        = round1 (healthHf item) := rfl
    rw [hp]
    have hin : 0 ≤ healthHf item ∧ healthHf item ≤ 100 := by
      unfold healthHf
      split_ifs <;> norm_num
    exact ⟨round1_nonneg hin.1, round1_le_100 hin.2⟩
  · have hp : (compute_scores lg item "github").people_score
        = round1 (round1 (min (peopleGithub lg item) 100)) := rfl
    rw [hp]
    have hin : 0 ≤ round1 (min (peopleGithub lg item) 100)
        ∧ round1 (min (peopleGithub lg item) 100) ≤ 100 := by
      constructor
      · exact round1_nonneg (le_min (peopleGithub_nonneg lg item) (by norm_num))
      · exact round1_le_100 (min_le_right _ _)
    exact ⟨round1_nonneg hin.1, round1_le_100 hin.2⟩
  · have hp : (compute_scores lg item "hf").people_score
        = round1 (peopleHf item) := rfl
    rw [hp]
    have hd : (0 : ℚ) ≤ (item.downloads : ℚ) / 50000 * 50 :=
      mul_nonneg (div_nonneg (Nat.cast_nonneg _) (by norm_num)) (by norm_num)
    have hin : 0 ≤ peopleHf item ∧ peopleHf item ≤ 100 := by
      unfold peopleHf
      exact ⟨le_min hd (by norm_num), le_trans (min_le_right _ _) (by norm_num)⟩
    exact ⟨round1_nonneg hin.1, round1_le_100 hin.2⟩

/-- Claim C2 witness: a concrete GitHub item with health score 1/2 satisfies
the hypotheses and hence the score bounds and the legacy-mean identity. -/
theorem compute_scores_bounded_wit :
    (0 ≤ healthScoreField
        { stars := 10, forks := 5, downloads := 0, likes := 0, days_since_update := 0,
          health := some { health_score := 1/2, contributors_90d := 3 },
          contributors := [{ contributions := 10 }, { contributions := 4 }] }
      ∧ healthScoreField
        { stars := 10, forks := 5, downloads := 0, likes := 0, days_since_update := 0,
          health := some { health_score := 1/2, contributors_90d := 3 },
          contributors := [{ contributions := 10 }, { contributions := 4 }] } ≤ 1)
    ∧ (0 ≤ (compute_scores (fun q => q)
        { stars := 10, forks := 5, downloads := 0, likes := 0, days_since_update := 0,
          health := some { health_score := 1/2, contributors_90d := 3 },
          contributors := [{ contributions := 10 }, { contributions := 4 }] } "github").popularity_score
      ∧ (compute_scores (fun q => q)
        { stars := 10, forks := 5, downloads := 0, likes := 0, days_since_update := 0,
          health := some { health_score := 1/2, contributors_90d := 3 },
          contributors := [{ contributions := 10 }, { contributions := 4 }] } "github").popularity_score ≤ 100) := by
  have hb : 0 ≤ healthScoreField
      { stars := 10, forks := 5, downloads := 0, likes := 0, days_since_update := 0,
        health := some { health_score := 1/2, contributors_90d := 3 },
        contributors := [{ contributions := 10 }, { contributions := 4 }] }
      ∧ healthScoreField
      { stars := 10, forks := 5, downloads := 0, likes := 0, days_since_update := 0,
        health := some { health_score := 1/2, contributors_90d := 3 },
        contributors := [{ contributions := 10 }, { contributions := 4 }] } ≤ 1 := by
    norm_num [healthScoreField]
  exact ⟨hb, (compute_scores_bounded (fun q => q) _ "github" (Or.inl rfl) hb.1 hb.2).1⟩

/-- Claim C9 (amended): with perfect recency/activity/responsiveness/release
signals the 0..1 health score is exactly 1 (label "alive") and the 0-100
health score of the stars-12000/forks-800 entity is 100.0; its popularity
score is `round(80 + 20*clamp(log1p(800)/log1p(2000)), 1)`: the stars term is
clamped to 1 before the 70-point weighting (so it saturates at 70), in
addition to the final cap of the sum at 100. -/
theorem perfect_entity_scores (lg decay : ℚ → ℚ)
    (hdecay : decay 0 = 1) (hlg20 : 0 < lg 20) (hlg15 : 0 < lg 15)
    (hlg10k : 0 < lg 10000) (hmono : lg 10000 ≤ lg 12000) :
    (computeHealth lg decay perfectSignals).health_score = 1
    ∧ (computeHealth lg decay perfectSignals).health_label = "alive"
    ∧ (compute_scores lg (entityC9 ((computeHealth lg decay perfectSignals).health_score)) "github").health_score = 100
    ∧ (compute_scores lg (entityC9 ((computeHealth lg decay perfectSignals).health_score)) "github").popularity_score
      = round1 (80 + 20 * clamp (lg 800 / lg 2000)) := by
  have hrec : recencyScore decay perfectSignals = 1 := by
    norm_num [recencyScore, perfectSignals, hdecay, clamp]
  have hact : activityScore lg perfectSignals = 1 := by
    have h1 : lg 20 / lg 20 = 1 := div_self (ne_of_gt hlg20)
    have h2 : lg 15 / lg 15 = 1 := div_self (ne_of_gt hlg15)
    norm_num [activityScore, diversityBonus, perfectSignals, h1, h2, clamp]
  have hresp : responsivenessScore perfectSignals = 1 := by
    norm_num [responsivenessScore, perfectSignals, prLatencyResp, issueLatencyResp, clamp]
  have hrel : releaseScore perfectSignals = 1 := by
    norm_num [releaseScore, perfectSignals]
  have hsc : (computeHealth lg decay perfectSignals).health_score
      = 3/10 * recencyScore decay perfectSignals + 1/5 * activityScore lg perfectSignals
        + 7/20 * responsivenessScore perfectSignals + 3/20 * releaseScore perfectSignals := rfl
  have hscore : (computeHealth lg decay perfectSignals).health_score = 1 := by
    rw [hsc, hrec, hact, hresp, hrel]
    norm_num
  have hlab : (computeHealth lg decay perfectSignals).health_label
      = healthLabel ((computeHealth lg decay perfectSignals).health_score) := rfl
  refine ⟨hscore, ?_, ?_, ?_⟩
  · rw [hlab, hscore]
    norm_num [healthLabel]
  · rw [hscore]
    have hh : (compute_scores lg (entityC9 1) "github").health_score
        = round1 (healthGithub (entityC9 1)) := rfl
    rw [hh]
    have : healthGithub (entityC9 1) = 100 := by
      norm_num [healthGithub, healthScoreField, entityC9, round1, round_eq]
    rw [this]
    norm_num [round1, round_eq]
  · rw [hscore]
    have hstars : clamp (lg 12000 / lg 10000) = 1 :=
      clamp_of_one_le ((one_le_div hlg10k).mpr hmono)
    have hp : (compute_scores lg (entityC9 1) "github").popularity_score
        = round1 (popularityGithub lg (entityC9 1)) := rfl
    have hpopG : popularityGithub lg (entityC9 1) = round1 (80 + 20 * clamp (lg 800 / lg 2000)) := by
      unfold popularityGithub entityC9
      dsimp only
      simp only [Nat.cast_ofNat]
      rw [hstars]
      rw [min_eq_left (by
        have := clamp_le_one (lg 800 / lg 2000)
        have := clamp_nonneg (lg 800 / lg 2000)
        linarith)]
      congr 1
      ring
    rw [hp, hpopG, round1_idem]

/-- Claim C9 counterexample: for a log1p-like function with
`lg 12000 > lg 10000` (true of the real `log1p`), the popularity the code
computes for stars 12000 / forks 800 differs from the
spec formula with the cap applied once to the final sum: the code clamps the stars ratio
to 1 first (yielding 90 here), the spec formula yields 97. -/
theorem popularity_single_cap_cx :
    (compute_scores
        (fun q => if q = 12000 then 11 else if q = 10000 then 10
          else if q = 800 then 1 else if q = 2000 then 2 else 1)
        (entityC9 1) "github").popularity_score = 90
    ∧ specPopularityGithub
        (fun q => if q = 12000 then 11 else if q = 10000 then 10
          else if q = 800 then 1 else if q = 2000 then 2 else 1) 12000 800 = 97
    ∧ (compute_scores
        (fun q => if q = 12000 then 11 else if q = 10000 then 10
          else if q = 800 then 1 else if q = 2000 then 2 else 1)
        (entityC9 1) "github").popularity_score
      ≠ specPopularityGithub
        (fun q => if q = 12000 then 11 else if q = 10000 then 10
          else if q = 800 then 1 else if q = 2000 then 2 else 1) 12000 800 := by
  have h1 : (compute_scores
      (fun q => if q = 12000 then 11 else if q = 10000 then 10
        else if q = 800 then 1 else if q = 2000 then 2 else 1)
      (entityC9 1) "github").popularity_score = 90 := by
    have hp : (compute_scores
        (fun q => if q = 12000 then 11 else if q = 10000 then 10
          else if q = 800 then 1 else if q = 2000 then 2 else 1)
        (entityC9 1) "github").popularity_score
        = round1 (popularityGithub
            (fun q => if q = 12000 then 11 else if q = 10000 then 10
              else if q = 800 then 1 else if q = 2000 then 2 else 1) (entityC9 1)) := rfl
    rw [hp]
    norm_num [popularityGithub, entityC9, clamp, round1, round_eq]
  have h2 : specPopularityGithub
      (fun q => if q = 12000 then 11 else if q = 10000 then 10
        else if q = 800 then 1 else if q = 2000 then 2 else 1) 12000 800 = 97 := by
    norm_num [specPopularityGithub, round1, round_eq]
  refine ⟨h1, h2, ?_⟩
  rw [h1, h2]
  norm_num

/-- Claim C9 witness: the amended theorem instantiated at executable stand-ins
for `log1p` and the decay. -/
theorem perfect_entity_scores_wit :
    (decayWit 0 = 1 ∧ 0 < lgWit 20 ∧ 0 < lgWit 15 ∧ 0 < lgWit 10000 ∧ lgWit 10000 ≤ lgWit 12000)
    ∧ (computeHealth lgWit decayWit perfectSignals).health_score = 1
    ∧ (compute_scores lgWit (entityC9 ((computeHealth lgWit decayWit perfectSignals).health_score)) "github").popularity_score
      = round1 (80 + 20 * clamp (lgWit 800 / lgWit 2000)) := by
  have hd : decayWit 0 = 1 := rfl
  have h1 : 0 < lgWit 20 := by norm_num [lgWit]
  have h2 : 0 < lgWit 15 := by norm_num [lgWit]
  have h3 : 0 < lgWit 10000 := by norm_num [lgWit]
  have h4 : lgWit 10000 ≤ lgWit 12000 := by norm_num [lgWit]
  exact ⟨⟨hd, h1, h2, h3, h4⟩,
    (perfect_entity_scores lgWit decayWit hd h1 h2 h3 h4).1,
    (perfect_entity_scores lgWit decayWit hd h1 h2 h3 h4).2.2.2⟩

theorem mem_rowTags_fst {hay tag : String} {rows : List (String × List String)}
    (h : tag ∈ rowTags hay rows) : tag ∈ rows.map Prod.fst := by
  unfold rowTags at h
  rw [List.mem_filterMap] at h
  obtain ⟨r, hr, he⟩ := h
  by_cases hc : r.2.any (fun kw => strContains hay kw)
  · rw [if_pos hc] at he
    have : r.1 = tag := Option.some_inj.mp he
    exact this ▸ List.mem_map_of_mem Prod.fst hr
  · rw [if_neg hc] at he
    cases he

theorem licenseTag_mem_labels (li : Option String) :
    licenseTag li = "permissive" ∨ licenseTag li = "restricted"
    ∨ licenseTag li = "unclear-license" := by
  unfold licenseTag
  cases li with
  | none => right; right; rfl
  | some s =>
    dsimp only
    split_ifs <;> simp

theorem mem_extract_tags_iff (text : String) (topics : List String) (li : Option String)
    (lab : String) (h1 : lab ∉ keywordRows1.map Prod.fst)
    (h2 : lab ∉ keywordRows2.map Prod.fst) :
    lab ∈ extract_tags text topics li ↔ licenseTag li = lab := by
  unfold extract_tags
  rw [List.mem_dedup, List.mem_append, List.mem_append, List.mem_singleton]
  constructor
  · rintro ((hm | hm) | hm)
    · exact absurd (mem_rowTags_fst hm) h1
    · exact hm.symm
    · exact absurd (mem_rowTags_fst hm) h2
  · intro he
    exact Or.inl (Or.inr he.symm)

/-- Claim C3: for every text, keyword list and license hint, the extracted tag
set contains at least one of the three license-bucket labels, and never two of
them. -/
theorem extract_tags_license_unique (text : String) (topics : List String) (li : Option String) :
    ("permissive" ∈ extract_tags text topics li
      ∨ "restricted" ∈ extract_tags text topics li
      ∨ "unclear-license" ∈ extract_tags text topics li)
    ∧ ¬("permissive" ∈ extract_tags text topics li ∧ "restricted" ∈ extract_tags text topics li)
    ∧ ¬("permissive" ∈ extract_tags text topics li ∧ "unclear-license" ∈ extract_tags text topics li)
    ∧ ¬("restricted" ∈ extract_tags text topics li ∧ "unclear-license" ∈ extract_tags text topics li) := by
  have hp := mem_extract_tags_iff text topics li "permissive" (by decide) (by decide)
  have hr := mem_extract_tags_iff text topics li "restricted" (by decide) (by decide)
  have hu := mem_extract_tags_iff text topics li "unclear-license" (by decide) (by decide)
  refine ⟨?_, ?_, ?_, ?_⟩
  · rcases licenseTag_mem_labels li with h | h | h
    · exact Or.inl (hp.mpr h)
    · exact Or.inr (Or.inl (hr.mpr h))
    · exact Or.inr (Or.inr (hu.mpr h))
  · rintro ⟨ha, hb⟩
    exact absurd ((hp.mp ha).symm.trans (hr.mp hb)) (by decide)
  · rintro ⟨ha, hb⟩
    exact absurd ((hp.mp ha).symm.trans (hu.mp hb)) (by decide)
  · rintro ⟨ha, hb⟩
    exact absurd ((hr.mp ha).symm.trans (hu.mp hb)) (by decide)

theorem tagCount_eq_itemsWithTag_length (items : List IndexItem) (tag : String)
    (h : ∀ it ∈ items, it.tags_top.Nodup) :
    tagCount items tag = (itemsWithTag items tag).length := by
  induction items with
  | nil => rfl
  | cons a l ih =>
    have ha := h a (List.mem_cons_self a l)
    have hl : ∀ it ∈ l, it.tags_top.Nodup := fun it hit => h it (List.mem_cons_of_mem a hit)
    have hocc : tagOccurrences (a :: l) = a.tags_top ++ tagOccurrences l := by
      simp [tagOccurrences]
    have hih := ih hl
    unfold tagCount itemsWithTag
    unfold tagCount itemsWithTag at hih
    rw [hocc, List.count_append, List.filter_cons]
    by_cases hmem : tag ∈ a.tags_top
    · have hcon : a.tags_top.contains tag = true := List.elem_eq_true_of_mem hmem
      rw [List.count_eq_one_of_mem ha hmem]
      simp only [hcon, if_true, List.length_cons]
      omega
    · have hcon : a.tags_top.contains tag = false := by
        rw [Bool.eq_false_iff]
        intro hc
        exact hmem (List.mem_of_elem_eq_true hc)
      rw [List.count_eq_zero.mpr hmem]
      simp only [hcon, Bool.false_eq_true, if_false]
      omega

/-- Claim C8: provided the (truncated) `tags_top` list of each item is
duplicate-free — true in the pipeline since tags come from `list(set(...))` —
a dedicated shard for a tag exists exactly when at least 25 of the index items
carry the tag, and any such shard is exactly the sublist of items carrying
it. -/
theorem tag_shard_threshold (items : List IndexItem) (tag : String)
    (h : ∀ it ∈ items, it.tags_top.Nodup) :
    ((∃ shard, (tag, shard) ∈ tagShards items) ↔ 25 ≤ (itemsWithTag items tag).length)
    ∧ (∀ shard, (tag, shard) ∈ tagShards items → shard = itemsWithTag items tag) := by
  have hcnt := tagCount_eq_itemsWithTag_length items tag h
  constructor
  · constructor
    · rintro ⟨shard, hs⟩
      unfold tagShards at hs
      rw [List.mem_filterMap] at hs
      obtain ⟨t, ht, he⟩ := hs
      by_cases hc : 25 ≤ tagCount items t
      · rw [if_pos hc] at he
        have h1 : t = tag := congrArg Prod.fst (Option.some_inj.mp he)
        rw [← hcnt, ← h1]
        exact hc
      · rw [if_neg hc] at he
        cases he
    · intro hle
      refine ⟨itemsWithTag items tag, ?_⟩
      unfold tagShards
      rw [List.mem_filterMap]
      refine ⟨tag, ?_, ?_⟩
      · unfold tagKeys
        rw [List.mem_dedup]
        have hpos : 0 < tagCount items tag := by omega
        unfold tagCount at hpos
        exact List.count_pos_iff.mp hpos
      · rw [if_pos (by omega : 25 ≤ tagCount items tag)]
  · intro shard hs
    unfold tagShards at hs
    rw [List.mem_filterMap] at hs
    obtain ⟨t, ht, he⟩ := hs
    by_cases hc : 25 ≤ tagCount items t
    · rw [if_pos hc] at he
      have hpair := Option.some_inj.mp he
      have h1 : t = tag := congrArg Prod.fst hpair
      have h2 : itemsWithTag items t = shard := congrArg Prod.snd hpair
      rw [← h2, h1]
    · rw [if_neg hc] at he
      cases he

/-- Claim C8 witness: 25 items all carrying the tag "pytorch" satisfy the
no-duplicate hypothesis and get a dedicated shard. -/
theorem tag_shard_threshold_wit :
    (∀ it ∈ List.replicate 25 ({ source := "github", tags_top := ["pytorch"] } : IndexItem),
      it.tags_top.Nodup)
    ∧ (∃ shard, ("pytorch", shard) ∈ tagShards
        (List.replicate 25 ({ source := "github", tags_top := ["pytorch"] } : IndexItem))) := by
  have hn : ∀ it ∈ List.replicate 25 ({ source := "github", tags_top := ["pytorch"] } : IndexItem),
      it.tags_top.Nodup := by
    intro it hit
    rw [List.eq_of_mem_replicate hit]
    decide
  exact ⟨hn, (tag_shard_threshold _ "pytorch" hn).1.mpr (by decide)⟩

end OssScout
